import Mathlib

/-
Verification development for the `pbreak` process tracer.

The crate's live code is `src/main.rs` together with `src/lib.rs` (whose inline
modules `ipc`, `session`, `cli` are what `pbreak::cli` resolves to); the files
`src/tracee.rs`, `src/ipc.rs`, `src/session.rs`, `src/cli.rs` hold the
canonical refactored variants of the same logic (they are not declared as
modules of the crate).  Both layers are embedded below: the canonical modules
under the root and `Ipc` namespaces, the historical `lib.rs` variants under
the `LibRs` namespace.

Modelling conventions:
 - OS syscall results (fork pid, waitpid status, ptrace success, pipe bytes)
   are passed as explicit arguments: each embedded function consumes exactly
   the responses the source code consumes, in source order.
 - A Rust `panic!` is an `Except.error` carrying the panic message; contexts
   where a panic unwinds through live locals append the events of their
   `Drop` implementations, in Rust's reverse-declaration drop order.
 - `libc::strsignal` is abstracted as a function argument `sg : Nat → String`
   giving the name of a signal number; the `{:?}` debug decoration of the
   returned C string is folded into `sg`'s output.
 - Machine integers are `Nat`/`Int`; the `libc` wait-status macros are
   embedded bit-for-bit over `Nat` (wait statuses are nonnegative).
-/

/-- Status field of a traced-process handle (`enum TraceeStatus`, tracee.rs). -/
inductive TraceeStatus where
  | Running
  | Stopped
  | Exited
  | Terminated
deriving DecidableEq, Repr

/-- The traced-process handle (`struct Tracee`, tracee.rs): a pid and a status. -/
structure Tracee where
  pid : Int
  status : TraceeStatus
deriving DecidableEq, Repr

/-- Observable actions of the tracer process, used to state ordering
properties (which syscalls happen, and in which order, around a panic). -/
inductive Event where
  | closeSenderCall
  | closeReceiverCall
  | receiveCall (msg : String)
  | receiveFailed
  | raisePanic (msg : String)
  | ptraceAttachCall
  | ptraceContCall
  | ptraceDetachCall
  | sigStop
  | sigCont
  | sigKill
  | blockingWait
deriving DecidableEq, Repr

/-- Interpret a `Nat` as the value of a C `signed char` cast, as in Rust's
`as i8` (used by the libc `WIFSIGNALED` macro). -/
def toInt8 (n : Nat) : Int :=
  if n % 256 < 128 then (n % 256 : Int) else (n % 256 : Int) - 256

/-- libc (linux): `WIFSTOPPED(status) = (status & 0xff) == 0x7f`. -/
def WIFSTOPPED (s : Nat) : Bool := s % 256 == 127

/-- libc (linux): `WSTOPSIG(status) = (status >> 8) & 0xff`. -/
def WSTOPSIG (s : Nat) : Nat := (s / 256) % 256

/-- libc (linux): `WIFEXITED(status) = (status & 0x7f) == 0`. -/
def WIFEXITED (s : Nat) : Bool := s % 128 == 0

/-- libc (linux): `WEXITSTATUS(status) = (status >> 8) & 0xff`. -/
def WEXITSTATUS (s : Nat) : Nat := (s / 256) % 256

/-- libc (linux): `WIFSIGNALED(status) = ((status & 0x7f) + 1) as i8 >= 2`. -/
def WIFSIGNALED (s : Nat) : Bool := 2 ≤ toInt8 (s % 128 + 1)

/-- libc (linux): `WTERMSIG(status) = status & 0x7f`. -/
def WTERMSIG (s : Nat) : Nat := s % 128

/-- `Tracee::wait_on_signal` (tracee.rs).  `waitRes` is the outcome of the
blocking `waitpid` call: `none` models `waitpid` returning a negative value
(the source then panics), `some ws` a successfully reported wait status.
The decoded status update and the printed description are returned;
the fallthrough after the three macro tests is the source's
`unreachable!("unexpected wait status ...")` panic. -/
def Tracee.wait_on_signal (sg : Nat → String) (t : Tracee) (waitRes : Option Nat) :
    Except String (Tracee × String) :=
  match waitRes with
  | none => .error ("failed to wait on pid (" ++ toString t.pid ++ ")")
  | some ws =>
    if WIFSTOPPED ws then
      .ok ({ t with status := .Stopped },
        "Process (" ++ toString t.pid ++ ") stopped with signal [" ++
          toString (WSTOPSIG ws) ++ ": " ++ sg (WSTOPSIG ws) ++ "]")
    else if WIFEXITED ws then
      .ok ({ t with status := .Exited },
        "Process (" ++ toString t.pid ++ ") exited with code [" ++
          toString (WEXITSTATUS ws) ++ "]")
    else if WIFSIGNALED ws then
      .ok ({ t with status := .Terminated },
        "Process (" ++ toString t.pid ++ ") terminated with signal [" ++
          toString (WTERMSIG ws) ++ ": " ++ sg (WTERMSIG ws) ++ "]")
    else
      .error ("unexpected wait status [" ++ toString ws ++ "]")

/-- The kernel-side state of the target process, as seen by a `ptrace`
request: in ptrace-stop, running, or gone (exited or terminated). -/
inductive OsProcState where
  | ptraceStopped
  | running
  | gone
deriving DecidableEq, Repr

/-- `ptrace(PTRACE_CONT, ...)` succeeds exactly when the target is currently
in a ptrace-stop; otherwise the kernel reports an error (ESRCH). -/
def ptraceContOk : OsProcState → Bool
  | .ptraceStopped => true
  | _ => false

/-- `Tracee::resume` (tracee.rs): issues `PTRACE_CONT`; panics when the
kernel rejects it (the source appends the errno text to the message, which
is abstracted away here), otherwise sets `status = Running`.  No `waitpid`
is issued. -/
def Tracee.resume (t : Tracee) (os : OsProcState) : Except String Tracee × List Event :=
  if ptraceContOk os then
    (.ok { t with status := .Running }, [.ptraceContCall])
  else
    (.error "failed to continue", [.ptraceContCall, .raisePanic "failed to continue"])

/-- Events of `impl Drop for Tracee` (tracee.rs): a no-op for the sentinel
pid 0; otherwise stop-and-wait if still running, then detach, SIGCONT,
SIGKILL, and a final blocking reap. -/
def dropTracee (t : Tracee) : List Event :=
  if t.pid = 0 then []
  else
    (if t.status = .Running then [Event.sigStop, Event.blockingWait] else []) ++
      [Event.ptraceDetachCall, Event.sigCont, Event.sigKill, Event.blockingWait]

namespace Ipc

/-- `struct Pipe` (ipc.rs): a pair of file descriptors; `-1` marks an
endpoint that has already been closed. -/
structure Pipe where
  read_fd : Int
  write_fd : Int
deriving DecidableEq, Repr

/-- `Pipe::close_receiver` (ipc.rs): closes the read end unless already
closed; a failing `close` panics, a successful one records `-1`.
`osCloseOk` is the kernel's answer to the `close` call (consulted only when
a `close` is actually issued). -/
def Pipe.close_receiver (p : Pipe) (osCloseOk : Bool) : Except String Pipe :=
  if p.read_fd ≠ -1 then
    if osCloseOk then .ok { p with read_fd := -1 }
    else .error "failed to close pipe's read file descriptor"
  else .ok p

/-- `Pipe::close_sender` (ipc.rs): closes the write end unless already
closed; a failing `close` panics, a successful one records `-1`. -/
def Pipe.close_sender (p : Pipe) (osCloseOk : Bool) : Except String Pipe :=
  if p.write_fd ≠ -1 then
    if osCloseOk then .ok { p with write_fd := -1 }
    else .error "failed to close pipe's write file descriptor"
  else .ok p

/-- Events of `impl Drop for Pipe` (ipc.rs): close each still-open endpoint
(the model assumes the kernel accepts these unwind-time closes). -/
def dropPipe (p : Pipe) : List Event :=
  (if p.read_fd ≠ -1 then [Event.closeReceiverCall] else []) ++
    (if p.write_fd ≠ -1 then [Event.closeSenderCall] else [])

/-- `Pipe::receive` (ipc.rs), at byte level: `read` fills a fresh zeroed
128-byte buffer with `min (avail.length) 128` bytes and returns exactly the
bytes read (`String::from_utf8_lossy(&buffer[..n_bytes])`). -/
def receive (avail : List UInt8) : List UInt8 := avail.take 128

end Ipc

/-- The OS responses consumed by the parent branch of `Tracee::from_cmd`:
result of closing the write end, result and content of the blocking pipe
read, and the `waitpid` outcome. -/
structure SpawnOsEnv where
  closeOk : Bool
  readOk : Bool
  recvMsg : String
  waitRes : Option Nat
deriving Repr

/-- Parent branch of `Tracee::from_cmd` (tracee.rs).  `rfd`/`wfd` are the
descriptors handed out by `Pipe::new`, `childPid` the pid returned by
`fork`.  Source order: `close_sender`; construct the handle (status
`Stopped`); blocking `receive`; if the message is non-empty, panic with
`failed to fork and trace: <msg>` — the panic unwinds through the live
handle and pipe, so their `Drop` events follow the raise; otherwise
`wait_on_signal`, then return the handle (the pipe is dropped on exit). -/
def Tracee.from_cmd_parent (sg : Nat → String) (rfd wfd childPid : Int)
    (env : SpawnOsEnv) : Except String Tracee × List Event :=
  let p : Ipc.Pipe := ⟨rfd, wfd⟩
  match p.close_sender env.closeOk with
  | .error e => (.error e, [.closeSenderCall, .raisePanic e] ++ Ipc.dropPipe p)
  | .ok p1 =>
    let t0 : Tracee := ⟨childPid, .Stopped⟩
    if env.readOk then
      if env.recvMsg.length > 0 then
        let pm := "failed to fork and trace: " ++ env.recvMsg
        (.error pm,
          [.closeSenderCall, .receiveCall env.recvMsg, .raisePanic pm] ++
            dropTracee t0 ++ Ipc.dropPipe p1)
      else
        match t0.wait_on_signal sg env.waitRes with
        | .error e =>
          (.error e,
            [.closeSenderCall, .receiveCall env.recvMsg, .blockingWait, .raisePanic e] ++
              dropTracee t0 ++ Ipc.dropPipe p1)
        | .ok (t1, _msg) =>
          (.ok t1, [.closeSenderCall, .receiveCall env.recvMsg, .blockingWait] ++ Ipc.dropPipe p1)
    else
      let em := "failed to read from pipe fd (" ++ toString rfd ++ ")"
      (.error em,
        [.closeSenderCall, .receiveFailed, .raisePanic em] ++
          dropTracee t0 ++ Ipc.dropPipe p1)

/-- `Tracee::from_pid` (tracee.rs): `PTRACE_ATTACH` (panic on failure, before
any handle exists), construct the handle with status `Stopped`, then a
blocking `wait_on_signal`; a panic inside the wait unwinds through the live
handle. -/
def Tracee.from_pid (sg : Nat → String) (pid : Int) (attachOk : Bool)
    (waitRes : Option Nat) : Except String Tracee × List Event :=
  if attachOk then
    let t0 : Tracee := ⟨pid, .Stopped⟩
    match t0.wait_on_signal sg waitRes with
    | .error e =>
      (.error e, [.ptraceAttachCall, .blockingWait, .raisePanic e] ++ dropTracee t0)
    | .ok (t1, _msg) => (.ok t1, [.ptraceAttachCall, .blockingWait])
  else
    (.error ("failed to attach to pid (" ++ toString pid ++ ")"),
      [.ptraceAttachCall, .raisePanic ("failed to attach to pid (" ++ toString pid ++ ")")])

/-- Does a blocking `waitpid` occur strictly before the first panic of the
trace?  This is the formal reading of "reaps the child via a blocking status
wait before the error is raised". -/
def reapBeforeRaise (tr : List Event) : Bool :=
  (tr.takeWhile (fun e => match e with | .raisePanic _ => false | _ => true)).contains
    Event.blockingWait

/-- Kernel encoding of a job-control stop: signal in the second byte, low
byte `0x7f`. -/
def encodeStopped (sig : Nat) : Nat := sig * 256 + 127

/-- Kernel encoding of a normal exit: exit code in the second byte, low byte
zero. -/
def encodeExited (code : Nat) : Nat := code * 256

/-- Kernel encoding of a termination by signal (no core-dump flag): the
signal number itself in the low seven bits. -/
def encodeSignaled (sig : Nat) : Nat := sig

/-- The aarch64 general-purpose register snapshot used by session.rs
(`regs`, `sp`, `pc`, `pstate` fields of `user_regs_struct`). -/
structure user_regs_struct where
  regs : List Nat
  sp : Nat
  pc : Nat
  pstate : Nat
deriving DecidableEq, Repr

/-- The aarch64 floating-point register snapshot used by session.rs
(`vregs`, `fpsr`, `fpcr` fields of `user_fpsimd_struct`). -/
structure user_fpsimd_struct where
  vregs : List Nat
  fpsr : Nat
  fpcr : Nat
deriving DecidableEq, Repr

/-- The kernel's view of the tracee's register file, plus whether the
register-transfer ptrace requests currently succeed. -/
structure OsRegs where
  gp : user_regs_struct
  fp : user_fpsimd_struct
  accessOk : Bool
deriving DecidableEq, Repr

/-- Failure modes of a register access (spec section 7): an invalid-state
use (not stopped) or an OS-level failure of the transfer itself. -/
inductive RegAccessErr where
  | protocol
  | registerAccess
deriving DecidableEq, Repr

/-- Modelled from the spec: `Tracee::read_general_purpose_registers` is
called by `handle_command` in session.rs but is defined in no file under
src/.  Spec section 4.1: precondition `status == Stopped`; fails with
`RegisterAccessError` on an OS-level failure; a full register snapshot is
exchanged each call. -/
def Tracee.read_general_purpose_registers (t : Tracee) (os : OsRegs) :
    Except RegAccessErr user_regs_struct :=
  if t.status = .Stopped then
    if os.accessOk then .ok os.gp else .error .registerAccess
  else .error .protocol

/-- Modelled from the spec: `Tracee::write_general_purpose_registers` is
called by `handle_command` in session.rs but is defined in no file under
src/.  Spec section 4.1: precondition `status == Stopped`; fails with
`RegisterAccessError` on an OS-level failure; the given snapshot replaces
the kernel's snapshot whole, with no partial-field update. -/
def Tracee.write_general_purpose_registers (t : Tracee) (os : OsRegs)
    (r : user_regs_struct) : Except RegAccessErr OsRegs :=
  if t.status = .Stopped then
    if os.accessOk then .ok { os with gp := r } else .error .registerAccess
  else .error .protocol

/-- Modelled from the spec: `Tracee::read_floating_point_registers` is
called by `handle_command` in session.rs but is defined in no file under
src/.  Same contract as the general-purpose read. -/
def Tracee.read_floating_point_registers (t : Tracee) (os : OsRegs) :
    Except RegAccessErr user_fpsimd_struct :=
  if t.status = .Stopped then
    if os.accessOk then .ok os.fp else .error .registerAccess
  else .error .protocol

/-- Modelled from the spec: `Tracee::write_floating_point_registers` is
called by `handle_command` in session.rs but is defined in no file under
src/.  Same contract as the general-purpose write. -/
def Tracee.write_floating_point_registers (t : Tracee) (os : OsRegs)
    (r : user_fpsimd_struct) : Except RegAccessErr OsRegs :=
  if t.status = .Stopped then
    if os.accessOk then .ok { os with fp := r } else .error .registerAccess
  else .error .protocol

/-- The OS responses one command-loop iteration may consume: the process
state consulted by `PTRACE_CONT`, the next `waitpid` outcome, and the
register file. -/
structure OsWorld where
  procState : OsProcState
  waitRes : Option Nat
  regs : OsRegs
deriving Repr

/-- Render a register-access failure as the fatal diagnostic of the command
loop (spec section 4.3: any OS-level error from the handle while executing
a recognized command aborts the whole program). -/
def RegAccessErr.describe : RegAccessErr → String
  | .protocol => "protocol error: tracee is not stopped"
  | .registerAccess => "register access error"

/-- `handle_command` (session.rs): exact match on the five command strings;
`continue` resumes then waits; the register commands fetch and display, or
fetch-modify-write, a full snapshot (`dbg!` output is abstracted as one
string per displayed field); every other line prints
`unexpected command: "<line>"` and changes nothing. -/
def handle_command (sg : Nat → String) (t : Tracee) (os : OsWorld) (line : String) :
    Except String (Tracee × OsWorld × List String) :=
  if line = "continue" then
    match (t.resume os.procState).1 with
    | .error e => .error e
    | .ok t1 =>
      match t1.wait_on_signal sg os.waitRes with
      | .error e => .error e
      | .ok (t2, m) => .ok (t2, os, [m])
  else if line = "readgp" then
    match t.read_general_purpose_registers os.regs with
    | .error e => .error e.describe
    | .ok r =>
      .ok (t, os,
        ["regs = " ++ toString r.regs, "sp = " ++ toString r.sp,
         "pc = " ++ toString r.pc, "pstate = " ++ toString r.pstate])
  else if line = "writegp" then
    match t.read_general_purpose_registers os.regs with
    | .error e => .error e.describe
    | .ok r =>
      match t.write_general_purpose_registers os.regs { r with sp := 99999999 } with
      | .error e => .error e.describe
      | .ok os' => .ok (t, { os with regs := os' }, [])
  else if line = "readfp" then
    match t.read_floating_point_registers os.regs with
    | .error e => .error e.describe
    | .ok r =>
      .ok (t, os,
        ["vregs = " ++ toString r.vregs, "fpsr = " ++ toString r.fpsr,
         "fpcr = " ++ toString r.fpcr])
  else if line = "writefp" then
    match t.read_floating_point_registers os.regs with
    | .error e => .error e.describe
    | .ok r =>
      match t.write_floating_point_registers os.regs { r with fpcr := 99999999 } with
      | .error e => .error e.describe
      | .ok os' => .ok (t, { os with regs := os' }, [])
  else
    .ok (t, os, ["unexpected command: \"" ++ line ++ "\""])

/-- `run_session` (session.rs): iterate over the line results of standard
input until it is exhausted.  Each element pairs the line-read result with
the OS responses available to that iteration.  An `Err` line is reported
and the loop continues; an `Ok` line goes to `handle_command`, whose panic
aborts the whole run.  The `pbreak> ` prompt written after each iteration
is recorded in the output (the one printed before the loop is outside this
function's fold). -/
def run_session (sg : Nat → String) (t : Tracee) :
    List (Except String String × OsWorld) → Except String (Tracee × List String)
  | [] => .ok (t, [])
  | (lr, os) :: rest =>
    match lr with
    | .error e =>
      match run_session sg t rest with
      | .error p => .error p
      | .ok (t', out) =>
        .ok (t', ("failed to read line from stdin: " ++ e) :: "pbreak> " :: out)
    | .ok line =>
      match handle_command sg t os line with
      | .error p => .error p
      | .ok (t1, _os1, out1) =>
        match run_session sg t1 rest with
        | .error p => .error p
        | .ok (t2, out2) => .ok (t2, out1 ++ "pbreak> " :: out2)

/-- The five command strings `handle_command` recognizes. -/
def recognizedCommands : List String :=
  ["continue", "readgp", "writegp", "readfp", "writefp"]

/-- A session input element that exercises only the loop's recovery paths:
a failed line read, or a line outside the recognized vocabulary. -/
def benignLine : Except String String → Bool
  | .error _ => true
  | .ok l => decide (l ∉ recognizedCommands)

/-- The output the loop produces on a benign input element, per the spec's
words: the read failure is reported, an unrecognized line is echoed as
`unexpected command: "<line>"`, and in both cases the loop goes on to the
next prompt. -/
def benignOut : List (Except String String × OsWorld) → List String
  | [] => []
  | (.error e, _) :: rest =>
    ("failed to read line from stdin: " ++ e) :: "pbreak> " :: benignOut rest
  | (.ok l, _) :: rest =>
    ("unexpected command: \"" ++ l ++ "\"") :: "pbreak> " :: benignOut rest

namespace LibRs

/-- A Rust `String` as `String::with_capacity` builds it: a heap buffer of
`cap` bytes, the bytes currently stored there, and the `len` field that
delimits the string's observable content. -/
structure HeapString where
  cap : Nat
  bytes : List UInt8
  len : Nat
deriving DecidableEq, Repr

/-- The historical `ipc::Pipe::receive` of lib.rs, at byte level: `read`
writes up to `capacity()` bytes into the buffer of a fresh
`String::with_capacity(128)`, but the string's `len` field is never
updated, so the returned string exposes its first `len = 0` bytes. -/
def receive (avail : List UInt8) : List UInt8 :=
  let s : HeapString := ⟨128, [], 0⟩
  let s1 : HeapString := ⟨s.cap, avail.take s.cap, s.len⟩
  s1.bytes.take s1.len

/-- The spawn-handshake test of lib.rs (`err_str.len() > 0` in the parent
branch of `Command::run`'s fork arm), applied to the historical `receive`. -/
def parent_sees_failure (avail : List UInt8) : Bool :=
  0 < (receive avail).length

/-- `enum Command` (lib.rs `cli` module): the operation selected by the
entry point. -/
inductive Command where
  | Missing
  | Attach (pid_str : String)
  | Fork (program : String) (args : List String)
deriving DecidableEq, Repr

/-- `Command::from_args` (lib.rs): one argument means no command; `-p <pid>`
selects attach (the pid string is parsed later, in `run`); otherwise the
second argument is the program and the rest its arguments.  Indexing
`args[1]` of a shorter vector panics in Rust, hence the error case. -/
def Command.from_args (args : List String) : Except String Command :=
  if args.length = 1 then .ok .Missing
  else if args.length = 3 ∧ args.getD 1 "" = "-p" then .ok (.Attach (args.getD 2 ""))
  else
    match args.get? 1 with
    | some p => .ok (.Fork p (args.drop 2))
    | none => .error "index out of bounds"

/-- `Command::run` (lib.rs): `Missing` prints a message and returns `-1`;
`Attach` parses the pid (panic on failure), attaches (panic on failure) and
runs the session; `Fork`'s parent branch closes its write end, reads the
handshake message, and on a non-empty message reaps the child with a
blocking `waitpid` before panicking with `failed to fork and trace: <msg>`;
on an empty message it reaps the exec trap and runs the session.  Every
path that survives the session falls through to `return 0`.
`parsedPid` is the outcome of the stdlib call `pid_str.parse::<c_int>()`;
`session` is the session's outcome: `ok ()` when the input stream is
exhausted, `error` when a command was fatal. -/
def Command.run (c : Command) (parsedPid : Option Int) (attachOk : Bool)
    (spawnMsg : String) (waitOk : Bool) (session : Except String Unit) :
    Except String Int :=
  match c with
  | .Missing => .ok (-1)
  | .Attach s =>
    match parsedPid with
    | none => .error ("invalid value for -p: \"" ++ s ++ "\"")
    | some pid =>
      if attachOk then
        match session with
        | .error e => .error e
        | .ok _ => .ok 0
      else .error ("failed to attach to pid (" ++ toString pid ++ ")")
  | .Fork _ _ =>
    if spawnMsg.length > 0 then
      if waitOk then .error ("failed to fork and trace: " ++ spawnMsg)
      else .error "failed to wait on pid"
    else
      if waitOk then
        match session with
        | .error e => .error e
        | .ok _ => .ok 0
      else .error "failed to wait on pid"

/-- `main` (main.rs): `exit(command.run())`; a panic anywhere aborts the
process with the Rust panic status, modelled as 101. -/
def main_exit (c : Command) (parsedPid : Option Int) (attachOk : Bool)
    (spawnMsg : String) (waitOk : Bool) (session : Except String Unit) : Int :=
  match c.run parsedPid attachOk spawnMsg waitOk session with
  | .ok n => n
  | .error _ => 101

end LibRs

/-- C3: `resume()` requires the precondition `status == Stopped`: under the
handle/kernel agreement invariant (the kernel has the target in ptrace-stop
only if the handle records `Stopped`), every call on a handle whose status
is not `Stopped` — in particular an `Exited` one — fails rather than
silently succeeding; a successful call sets `status = Running` (keeping the
pid) and performs no blocking wait of its own. -/
theorem c3_resume_precondition (t : Tracee) (os : OsProcState)
    (h : os = .ptraceStopped → t.status = .Stopped) :
    (t.status ≠ .Stopped → (t.resume os).1 = .error "failed to continue") ∧
    (∀ t', (t.resume os).1 = .ok t' → t'.status = .Running ∧ t'.pid = t.pid) ∧
    Event.blockingWait ∉ (t.resume os).2 := by
  cases os with
  | ptraceStopped =>
    refine ⟨fun hne => absurd (h rfl) hne, fun t' ht' => ?_, by simp [Tracee.resume, ptraceContOk]⟩
    simp only [Tracee.resume, ptraceContOk, if_pos] at ht'
    cases ht'
    exact ⟨rfl, rfl⟩
  | running =>
    exact ⟨fun _ => rfl, fun t' ht' => by simp [Tracee.resume, ptraceContOk] at ht',
      by simp [Tracee.resume, ptraceContOk]⟩
  | gone =>
    exact ⟨fun _ => rfl, fun t' ht' => by simp [Tracee.resume, ptraceContOk] at ht',
      by simp [Tracee.resume, ptraceContOk]⟩

/-- Witness for C3: resuming an already-exited handle (kernel agrees the
target is gone) fails with the continue panic. -/
theorem c3_resume_precondition_witness :
    ((⟨7, .Exited⟩ : Tracee).resume .gone).1 = .error "failed to continue" :=
  (c3_resume_precondition ⟨7, .Exited⟩ .gone (by decide)).1 (by decide)

/-- A successful `close_receiver` always leaves the read endpoint marked
closed, whether it issued a real `close` or was already a no-op. -/
lemma close_receiver_marks_closed (p q : Ipc.Pipe) (b : Bool)
    (h : p.close_receiver b = .ok q) : q.read_fd = -1 := by
  unfold Ipc.Pipe.close_receiver at h
  split at h
  · split at h
    · cases h; rfl
    · cases h
  · next hc =>
    cases h
    simpa using hc

/-- On an endpoint marked closed, `close_receiver` is a successful no-op. -/
lemma close_receiver_noop (p : Ipc.Pipe) (b : Bool) (h : p.read_fd = -1) :
    p.close_receiver b = .ok p := by
  unfold Ipc.Pipe.close_receiver
  rw [if_neg]
  simp [h]

/-- A successful `close_sender` always leaves the write endpoint marked
closed. -/
lemma close_sender_marks_closed (p q : Ipc.Pipe) (b : Bool)
    (h : p.close_sender b = .ok q) : q.write_fd = -1 := by
  unfold Ipc.Pipe.close_sender at h
  split at h
  · split at h
    · cases h; rfl
    · cases h
  · next hc =>
    cases h
    simpa using hc

/-- On an endpoint marked closed, `close_sender` is a successful no-op. -/
lemma close_sender_noop (p : Ipc.Pipe) (b : Bool) (h : p.write_fd = -1) :
    p.close_sender b = .ok p := by
  unfold Ipc.Pipe.close_sender
  rw [if_neg]
  simp [h]

/-- C8: `close_receiver` and `close_sender` are idempotent: whenever a close
of an endpoint has succeeded, any later close of that endpoint is a no-op
that succeeds regardless of how the kernel would answer a real `close`,
because the endpoint records `-1` once closed. -/
theorem c8_close_idempotent (p q r : Ipc.Pipe) (b1 b2 c1 c2 : Bool)
    (hq : p.close_receiver b1 = .ok q) (hr : p.close_sender c1 = .ok r) :
    q.close_receiver b2 = .ok q ∧ r.close_sender c2 = .ok r :=
  ⟨close_receiver_noop q b2 (close_receiver_marks_closed p q b1 hq),
   close_sender_noop r c2 (close_sender_marks_closed p r c1 hr)⟩

/-- Witness for C8: after closing both ends of a pipe with descriptors 3/4,
a second close of either end succeeds even when the kernel would refuse a
real `close`. -/
theorem c8_close_idempotent_witness :
    (⟨-1, 4⟩ : Ipc.Pipe).close_receiver false = .ok ⟨-1, 4⟩ ∧
    (⟨3, -1⟩ : Ipc.Pipe).close_sender false = .ok ⟨3, -1⟩ :=
  c8_close_idempotent ⟨3, 4⟩ ⟨-1, 4⟩ ⟨3, -1⟩ true false true false rfl rfl

/-- C9: the historical `Pipe::receive` of lib.rs is not equivalent to the
canonical one of ipc.rs: it returns the empty byte string for every pipe
content (its `String`'s length stays zero), while the canonical version
returns the bytes actually read; in particular they disagree on the
two-byte message `[104, 105]`, and the lib.rs spawn handshake's
`err_str.len() > 0` test can never observe a child failure report. -/
theorem c9_receive_not_equivalent :
    (∀ avail : List UInt8, LibRs.receive avail = []) ∧
    (∀ (a : UInt8) (rest : List UInt8), Ipc.receive (a :: rest) = a :: rest.take 127) ∧
    LibRs.receive [104, 105] ≠ Ipc.receive [104, 105] ∧
    (∀ avail : List UInt8, LibRs.parent_sees_failure avail = false) := by
  refine ⟨fun _ => rfl, fun a rest => rfl, by decide, fun _ => rfl⟩

/-- C10: on any line outside the five recognized commands, `handle_command`
only echoes the line back: the handle is returned unchanged (same pid and
same status), the OS state is untouched, and no panic occurs. -/
theorem c10_unrecognized_leaves_state (sg : Nat → String) (t : Tracee) (os : OsWorld)
    (line : String) (h : line ∉ recognizedCommands) :
    handle_command sg t os line = .ok (t, os, ["unexpected command: \"" ++ line ++ "\""]) ∧
    (∀ t' os' out, handle_command sg t os line = .ok (t', os', out) →
      t'.pid = t.pid ∧ t'.status = t.status) := by
  simp only [recognizedCommands, List.mem_cons, List.mem_singleton, not_or] at h
  obtain ⟨h1, h2, h3, h4, h5, -⟩ := h
  have heq : handle_command sg t os line =
      .ok (t, os, ["unexpected command: \"" ++ line ++ "\""]) := by
    simp [handle_command, h1, h2, h3, h4, h5]
  refine ⟨heq, fun t' os' out hcall => ?_⟩
  rw [heq] at hcall
  cases hcall
  exact ⟨rfl, rfl⟩

/-- C1, counterexample: on a concrete failed spawn handshake (child message
`boom`), the parent's channel read is non-empty and the `SpawnError` panic
does carry the message verbatim, but no blocking status wait precedes the
raise — the reap happens only afterwards, in the unwind-time teardown — so
the claim's ordering is false as stated. -/
theorem c1_counterexample :
    (Tracee.from_cmd_parent (fun _ => "") 3 4 5 ⟨true, true, "boom", none⟩).1 =
      .error "failed to fork and trace: boom" ∧
    Event.blockingWait ∈ (Tracee.from_cmd_parent (fun _ => "") 3 4 5 ⟨true, true, "boom", none⟩).2 ∧
    reapBeforeRaise (Tracee.from_cmd_parent (fun _ => "") 3 4 5 ⟨true, true, "boom", none⟩).2 =
      false := by
  refine ⟨rfl, ?_, rfl⟩
  decide

/-- C1, amended: when the child reports a failure over the channel (the
parent's read is non-empty), the parent raises the `SpawnError` carrying
the child's message verbatim, and the child is reaped via a blocking status
wait performed by the handle's unwind-time teardown — after the raise, but
before the error escapes the constructor, as the full event trace shows. -/
theorem c1_spawn_failure_raise_then_reap (sg : Nat → String) (rfd wfd cpid : Int)
    (m : String) (w : Option Nat) (hm : 0 < m.length)
    (hr : rfd ≠ -1) (hw : wfd ≠ -1) (hc : cpid ≠ 0) :
    (Tracee.from_cmd_parent sg rfd wfd cpid ⟨true, true, m, w⟩).1 =
      .error ("failed to fork and trace: " ++ m) ∧
    (Tracee.from_cmd_parent sg rfd wfd cpid ⟨true, true, m, w⟩).2 =
      [.closeSenderCall, .receiveCall m, .raisePanic ("failed to fork and trace: " ++ m),
       .ptraceDetachCall, .sigCont, .sigKill, .blockingWait, .closeReceiverCall] := by
  constructor <;>
    simp [Tracee.from_cmd_parent, Ipc.Pipe.close_sender, Ipc.dropPipe, dropTracee,
      hm, hr, hw, hc]

/-- Witness for C1's amended theorem: the concrete failing spawn with child
message `boom` and child pid 5. -/
theorem c1_spawn_failure_raise_then_reap_witness :
    (Tracee.from_cmd_parent (fun _ => "sig") 3 4 5 ⟨true, true, "boom", some 0⟩).1 =
      .error "failed to fork and trace: boom" ∧
    (Tracee.from_cmd_parent (fun _ => "sig") 3 4 5 ⟨true, true, "boom", some 0⟩).2 =
      [.closeSenderCall, .receiveCall "boom", .raisePanic "failed to fork and trace: boom",
       .ptraceDetachCall, .sigCont, .sigKill, .blockingWait, .closeReceiverCall] :=
  c1_spawn_failure_raise_then_reap (fun _ => "sig") 3 4 5 "boom" (some 0)
    (by decide) (by decide) (by decide) (by decide)

/-- C4: each successful handle construction — `from_pid` with a granted
attach, `from_cmd` with an empty handshake read — performs a blocking wait
before returning, and when that wait reports the initial stop (the
attach-induced stop, resp. the exec trap), the returned handle has
`status == Stopped`. -/
theorem c4_constructors_return_stopped (sg : Nat → String) (pid rfd wfd cpid : Int)
    (ws : Nat) (hW : WIFSTOPPED ws = true) (hr : rfd ≠ -1) (hw : wfd ≠ -1) :
    (Tracee.from_pid sg pid true (some ws)).1 = .ok ⟨pid, .Stopped⟩ ∧
    Event.blockingWait ∈ (Tracee.from_pid sg pid true (some ws)).2 ∧
    (Tracee.from_cmd_parent sg rfd wfd cpid ⟨true, true, "", some ws⟩).1 =
      .ok ⟨cpid, .Stopped⟩ ∧
    Event.blockingWait ∈ (Tracee.from_cmd_parent sg rfd wfd cpid ⟨true, true, "", some ws⟩).2 := by
  refine ⟨?_, ?_, ?_, ?_⟩ <;>
    simp [Tracee.from_pid, Tracee.from_cmd_parent, Tracee.wait_on_signal,
      Ipc.Pipe.close_sender, Ipc.dropPipe, hW, hr, hw]

/-- Witness for C4: attach to pid 7 and spawn child pid 5, with the wait
reporting a SIGSTOP job-control stop (raw status 4991 = 19 * 256 + 0x7f). -/
theorem c4_constructors_return_stopped_witness :
    (Tracee.from_pid (fun _ => "sig") 7 true (some 4991)).1 = .ok ⟨7, .Stopped⟩ ∧
    Event.blockingWait ∈ (Tracee.from_pid (fun _ => "sig") 7 true (some 4991)).2 ∧
    (Tracee.from_cmd_parent (fun _ => "sig") 3 4 5 ⟨true, true, "", some 4991⟩).1 =
      .ok ⟨5, .Stopped⟩ ∧
    Event.blockingWait ∈
      (Tracee.from_cmd_parent (fun _ => "sig") 3 4 5 ⟨true, true, "", some 4991⟩).2 :=
  c4_constructors_return_stopped (fun _ => "sig") 7 3 4 5 4991
    (by decide) (by decide) (by decide)

/-- C6: the four register operations require `status == Stopped` (an
invalid-state failure otherwise), fail with `RegisterAccessError` when the
OS-level transfer fails, and exchange a full snapshot each call: a read
returns the kernel's whole snapshot and a write replaces the kernel's whole
snapshot with the given one, with no partial-field update. -/
theorem c6_register_access_contract (t1 t2 : Tracee) (os os' : OsRegs)
    (r : user_regs_struct) (fr : user_fpsimd_struct)
    (h1 : t1.status = .Stopped) (h2 : t2.status ≠ .Stopped)
    (h3 : os.accessOk = true) (h4 : os'.accessOk = false) :
    (t2.read_general_purpose_registers os = .error .protocol ∧
     t2.write_general_purpose_registers os r = .error .protocol ∧
     t2.read_floating_point_registers os = .error .protocol ∧
     t2.write_floating_point_registers os fr = .error .protocol) ∧
    (t1.read_general_purpose_registers os' = .error .registerAccess ∧
     t1.write_general_purpose_registers os' r = .error .registerAccess ∧
     t1.read_floating_point_registers os' = .error .registerAccess ∧
     t1.write_floating_point_registers os' fr = .error .registerAccess) ∧
    (t1.read_general_purpose_registers os = .ok os.gp ∧
     t1.write_general_purpose_registers os r = .ok { os with gp := r } ∧
     t1.read_floating_point_registers os = .ok os.fp ∧
     t1.write_floating_point_registers os fr = .ok { os with fp := fr }) := by
  simp [Tracee.read_general_purpose_registers, Tracee.write_general_purpose_registers,
    Tracee.read_floating_point_registers, Tracee.write_floating_point_registers,
    h1, h2, h3, h4]

/-- Witness for C6: a stopped and an exited handle against a healthy and a
failing register interface. -/
theorem c6_register_access_contract_witness :
    ((⟨7, .Exited⟩ : Tracee).read_general_purpose_registers
        ⟨⟨[1], 2, 3, 4⟩, ⟨[5], 6, 7⟩, true⟩ = .error .protocol ∧
      (⟨7, .Exited⟩ : Tracee).write_general_purpose_registers
        ⟨⟨[1], 2, 3, 4⟩, ⟨[5], 6, 7⟩, true⟩ ⟨[9], 9, 9, 9⟩ = .error .protocol ∧
      (⟨7, .Exited⟩ : Tracee).read_floating_point_registers
        ⟨⟨[1], 2, 3, 4⟩, ⟨[5], 6, 7⟩, true⟩ = .error .protocol ∧
      (⟨7, .Exited⟩ : Tracee).write_floating_point_registers
        ⟨⟨[1], 2, 3, 4⟩, ⟨[5], 6, 7⟩, true⟩ ⟨[8], 8, 8⟩ = .error .protocol) ∧
    ((⟨7, .Stopped⟩ : Tracee).read_general_purpose_registers
        ⟨⟨[1], 2, 3, 4⟩, ⟨[5], 6, 7⟩, false⟩ = .error .registerAccess ∧
      (⟨7, .Stopped⟩ : Tracee).write_general_purpose_registers
        ⟨⟨[1], 2, 3, 4⟩, ⟨[5], 6, 7⟩, false⟩ ⟨[9], 9, 9, 9⟩ = .error .registerAccess ∧
      (⟨7, .Stopped⟩ : Tracee).read_floating_point_registers
        ⟨⟨[1], 2, 3, 4⟩, ⟨[5], 6, 7⟩, false⟩ = .error .registerAccess ∧
      (⟨7, .Stopped⟩ : Tracee).write_floating_point_registers
        ⟨⟨[1], 2, 3, 4⟩, ⟨[5], 6, 7⟩, false⟩ ⟨[8], 8, 8⟩ = .error .registerAccess) ∧
    ((⟨7, .Stopped⟩ : Tracee).read_general_purpose_registers
        ⟨⟨[1], 2, 3, 4⟩, ⟨[5], 6, 7⟩, true⟩ = .ok ⟨[1], 2, 3, 4⟩ ∧
      (⟨7, .Stopped⟩ : Tracee).write_general_purpose_registers
        ⟨⟨[1], 2, 3, 4⟩, ⟨[5], 6, 7⟩, true⟩ ⟨[9], 9, 9, 9⟩ =
        .ok ⟨⟨[9], 9, 9, 9⟩, ⟨[5], 6, 7⟩, true⟩ ∧
      (⟨7, .Stopped⟩ : Tracee).read_floating_point_registers
        ⟨⟨[1], 2, 3, 4⟩, ⟨[5], 6, 7⟩, true⟩ = .ok ⟨[5], 6, 7⟩ ∧
      (⟨7, .Stopped⟩ : Tracee).write_floating_point_registers
        ⟨⟨[1], 2, 3, 4⟩, ⟨[5], 6, 7⟩, true⟩ ⟨[8], 8, 8⟩ =
        .ok ⟨⟨[1], 2, 3, 4⟩, ⟨[8], 8, 8⟩, true⟩) :=
  c6_register_access_contract ⟨7, .Stopped⟩ ⟨7, .Exited⟩
    ⟨⟨[1], 2, 3, 4⟩, ⟨[5], 6, 7⟩, true⟩ ⟨⟨[1], 2, 3, 4⟩, ⟨[5], 6, 7⟩, false⟩
    ⟨[9], 9, 9, 9⟩ ⟨[8], 8, 8⟩ rfl (by decide) rfl rfl

/-- The embedded `WIFSTOPPED` accepts every kernel-encoded stop status. -/
lemma wifstopped_encodeStopped (sig : Nat) : WIFSTOPPED (encodeStopped sig) = true := by
  simp [WIFSTOPPED, encodeStopped]
  omega

/-- The embedded `WSTOPSIG` recovers the stop signal from a kernel-encoded
stop status. -/
lemma wstopsig_encodeStopped (sig : Nat) (h : sig < 256) :
    WSTOPSIG (encodeStopped sig) = sig := by
  simp [WSTOPSIG, encodeStopped]
  omega

/-- A kernel-encoded normal exit is not a stop. -/
lemma not_wifstopped_encodeExited (code : Nat) :
    WIFSTOPPED (encodeExited code) = false := by
  simp [WIFSTOPPED, encodeExited]

/-- The embedded `WIFEXITED` accepts every kernel-encoded normal exit. -/
lemma wifexited_encodeExited (code : Nat) : WIFEXITED (encodeExited code) = true := by
  simp [WIFEXITED, encodeExited]
  omega

/-- The embedded `WEXITSTATUS` recovers the exit code from a kernel-encoded
normal exit. -/
lemma wexitstatus_encodeExited (code : Nat) (h : code < 256) :
    WEXITSTATUS (encodeExited code) = code := by
  simp [WEXITSTATUS, encodeExited]
  omega

/-- A kernel-encoded signal termination (real signal number, no core flag)
is not a stop. -/
lemma not_wifstopped_encodeSignaled (sig : Nat) (h1 : 1 ≤ sig) (h2 : sig ≤ 126) :
    WIFSTOPPED (encodeSignaled sig) = false := by
  simp [WIFSTOPPED, encodeSignaled]
  omega

/-- A kernel-encoded signal termination is not a normal exit. -/
lemma not_wifexited_encodeSignaled (sig : Nat) (h1 : 1 ≤ sig) (h2 : sig ≤ 126) :
    WIFEXITED (encodeSignaled sig) = false := by
  simp [WIFEXITED, encodeSignaled]
  omega

/-- The embedded `WIFSIGNALED` (with its `as i8` cast) accepts every
kernel-encoded signal termination. -/
lemma wifsignaled_encodeSignaled (sig : Nat) (h1 : 1 ≤ sig) (h2 : sig ≤ 126) :
    WIFSIGNALED (encodeSignaled sig) = true := by
  have hm : sig % 128 = sig := Nat.mod_eq_of_lt (by omega)
  have hm2 : (sig + 1) % 256 = sig + 1 := Nat.mod_eq_of_lt (by omega)
  simp only [WIFSIGNALED, encodeSignaled, toInt8, hm, hm2, decide_eq_true_eq]
  rw [if_pos (by omega)]
  omega

/-- The embedded `WTERMSIG` recovers the terminating signal. -/
lemma wtermsig_encodeSignaled (sig : Nat) (h2 : sig ≤ 126) :
    WTERMSIG (encodeSignaled sig) = sig := by
  simp [WTERMSIG, encodeSignaled]
  omega

/-- C5: `wait_on_signal` decodes the three kinds of kernel-encoded wait
outcomes exactly as the claim states: a stop outcome sets the status to
`Stopped`, a normal exit to `Exited`, a signal termination to `Terminated`,
and each case emits the human-readable description carrying the pid and the
stop signal name, exit code, or termination signal name respectively. -/
theorem c5_wait_decodes_status (sg : Nat → String) (t : Tracee) (sig code tsig : Nat)
    (h1 : sig < 256) (h2 : code < 256) (h3 : 1 ≤ tsig) (h4 : tsig ≤ 126) :
    t.wait_on_signal sg (some (encodeStopped sig)) =
      .ok ({ t with status := .Stopped },
        "Process (" ++ toString t.pid ++ ") stopped with signal [" ++
          toString sig ++ ": " ++ sg sig ++ "]") ∧
    t.wait_on_signal sg (some (encodeExited code)) =
      .ok ({ t with status := .Exited },
        "Process (" ++ toString t.pid ++ ") exited with code [" ++
          toString code ++ "]") ∧
    t.wait_on_signal sg (some (encodeSignaled tsig)) =
      .ok ({ t with status := .Terminated },
        "Process (" ++ toString t.pid ++ ") terminated with signal [" ++
          toString tsig ++ ": " ++ sg tsig ++ "]") := by
  refine ⟨?_, ?_, ?_⟩
  · simp [Tracee.wait_on_signal, wifstopped_encodeStopped, wstopsig_encodeStopped sig h1]
  · simp [Tracee.wait_on_signal, not_wifstopped_encodeExited, wifexited_encodeExited,
      wexitstatus_encodeExited code h2]
  · simp [Tracee.wait_on_signal, not_wifstopped_encodeSignaled tsig h3 h4,
      not_wifexited_encodeSignaled tsig h3 h4, wifsignaled_encodeSignaled tsig h3 h4,
      wtermsig_encodeSignaled tsig h4]

/-- Witness for C5: pid 7 with a SIGSTOP stop (19), an exit with code 3,
and a SIGKILL termination (9). -/
theorem c5_wait_decodes_status_witness :
    (⟨7, .Running⟩ : Tracee).wait_on_signal (fun n => "sig" ++ toString n)
      (some (encodeStopped 19)) =
      .ok (⟨7, .Stopped⟩, "Process (7) stopped with signal [19: sig19]") ∧
    (⟨7, .Running⟩ : Tracee).wait_on_signal (fun n => "sig" ++ toString n)
      (some (encodeExited 3)) =
      .ok (⟨7, .Exited⟩, "Process (7) exited with code [3]") ∧
    (⟨7, .Running⟩ : Tracee).wait_on_signal (fun n => "sig" ++ toString n)
      (some (encodeSignaled 9)) =
      .ok (⟨7, .Terminated⟩, "Process (7) terminated with signal [9: sig9]") :=
  c5_wait_decodes_status (fun n => "sig" ++ toString n) ⟨7, .Running⟩ 19 3 9
    (by decide) (by decide) (by decide) (by decide)

/-- C7: the command loop never terminates on command content: on any input
stream made of line-read failures and unrecognized lines, it consumes every
element — reporting each read failure, echoing
`unexpected command: "<line>"` for each unrecognized line, and prompting
again after each one — and ends only when the input is exhausted, with the
handle untouched. -/
theorem c7_loop_survives_bad_input (sg : Nat → String) (t : Tracee)
    (inputs : List (Except String String × OsWorld))
    (h : ∀ x ∈ inputs, benignLine x.1 = true) :
    run_session sg t inputs = .ok (t, benignOut inputs) := by
  induction inputs with
  | nil => rfl
  | cons hd tl ih =>
    obtain ⟨lr, os⟩ := hd
    have hhd := h (lr, os) (List.mem_cons_self _ _)
    have htl : ∀ x ∈ tl, benignLine x.1 = true :=
      fun x hx => h x (List.mem_cons_of_mem _ hx)
    cases lr with
    | error e =>
      simp only [run_session, ih htl, benignOut]
    | ok l =>
      have hl : l ∉ recognizedCommands := of_decide_eq_true hhd
      simp only [recognizedCommands, List.mem_cons, List.not_mem_nil, or_false, not_or] at hl
      obtain ⟨h1', h2', h3', h4', h5'⟩ := hl
      simp only [run_session, handle_command, if_neg h1', if_neg h2', if_neg h3',
        if_neg h4', if_neg h5', ih htl, benignOut, List.singleton_append]

/-- Witness for C7: a failed read followed by the unknown line `foo` are
both survived, and the loop reaches the end of the two-element input. -/
theorem c7_loop_survives_bad_input_witness :
    run_session (fun _ => "") ⟨7, .Stopped⟩
      [(.error "io", ⟨.gone, none, ⟨⟨[], 0, 0, 0⟩, ⟨[], 0, 0⟩, true⟩⟩),
       (.ok "foo", ⟨.gone, none, ⟨⟨[], 0, 0, 0⟩, ⟨[], 0, 0⟩, true⟩⟩)] =
      .ok (⟨7, .Stopped⟩,
        ["failed to read line from stdin: io", "pbreak> ",
         "unexpected command: \"foo\"", "pbreak> "]) :=
  c7_loop_survives_bad_input (fun _ => "") ⟨7, .Stopped⟩
    [(.error "io", ⟨.gone, none, ⟨⟨[], 0, 0, 0⟩, ⟨[], 0, 0⟩, true⟩⟩),
     (.ok "foo", ⟨.gone, none, ⟨⟨[], 0, 0, 0⟩, ⟨[], 0, 0⟩, true⟩⟩)]
    (by decide)

/-- C2: in the program as linked (`main.rs` resolving `pbreak::cli` to the
lib.rs module), a session that ends because the interactive input stream is
exhausted makes `Command::run` fall through to `return 0`, so the process
exit status is 0 for both the attach and the spawn operation; and the exit
status is `-1` exactly when the entry point selected no operation
(`Command::Missing`), every other path exiting with 0 or aborting with the
panic status. -/
theorem c2_exit_status (s prog : String) (args : List String) (pid : Int)
    (sess : Except String Unit) (hs : sess = .ok ()) :
    LibRs.main_exit (.Attach s) (some pid) true "" true sess = 0 ∧
    LibRs.main_exit (.Fork prog args) (some pid) true "" true sess = 0 ∧
    (∀ (c : LibRs.Command) (pp : Option Int) (a : Bool) (m : String) (w : Bool)
      (se : Except String Unit), LibRs.main_exit c pp a m w se = -1 ↔ c = .Missing) := by
  subst hs
  refine ⟨by simp [LibRs.main_exit, LibRs.Command.run],
    by simp [LibRs.main_exit, LibRs.Command.run], ?_⟩
  intro c pp a m w se
  cases c with
  | Missing => simp [LibRs.main_exit, LibRs.Command.run]
  | Attach s' =>
    apply iff_of_false ?_ (by simp)
    cases pp with
    | none => simp [LibRs.main_exit, LibRs.Command.run]
    | some p =>
      cases a <;> cases se <;>
        simp [LibRs.main_exit, LibRs.Command.run]
  | Fork p' a' =>
    apply iff_of_false ?_ (by simp)
    by_cases hm : m.length > 0
    · cases w <;> simp [LibRs.main_exit, LibRs.Command.run, hm]
    · cases w <;> cases se <;> simp [LibRs.main_exit, LibRs.Command.run, hm]

/-- Witness for C2: attaching to pid 5 and spawning `sleep 1`, each with a
session that ends at end of input, exit with status 0; the `-1` status
characterizes the missing-command path. -/
theorem c2_exit_status_witness :
    LibRs.main_exit (.Attach "5") (some 5) true "" true (.ok ()) = 0 ∧
    LibRs.main_exit (.Fork "sleep" ["1"]) (some 5) true "" true (.ok ()) = 0 ∧
    (∀ (c : LibRs.Command) (pp : Option Int) (a : Bool) (m : String) (w : Bool)
      (se : Except String Unit), LibRs.main_exit c pp a m w se = -1 ↔ c = .Missing) :=
  c2_exit_status "5" "sleep" ["1"] 5 (.ok ()) rfl

/-- Witness for C10: the line `foo` is echoed and the handle is unchanged. -/
theorem c10_unrecognized_leaves_state_witness :
    handle_command (fun _ => "") ⟨7, .Stopped⟩
      ⟨.gone, none, ⟨⟨[], 0, 0, 0⟩, ⟨[], 0, 0⟩, true⟩⟩ "foo" =
      .ok (⟨7, .Stopped⟩, ⟨.gone, none, ⟨⟨[], 0, 0, 0⟩, ⟨[], 0, 0⟩, true⟩⟩,
        ["unexpected command: \"foo\""]) :=
  (c10_unrecognized_leaves_state (fun _ => "") ⟨7, .Stopped⟩
    ⟨.gone, none, ⟨⟨[], 0, 0, 0⟩, ⟨[], 0, 0⟩, true⟩⟩ "foo" (by decide)).1
